import Mathlib

/-!
Verification of the SS_render dashboard client (src/dashboard/app.js and
src/dashboard/tests.js) against its natural-language specification.

The development shallowly embeds the connection manager, the message
normalizer, the producer-state aggregator and the bounded event log.
Dynamic JS values are modelled by the JSON-like type `JVal`; JS objects are
insertion-ordered association lists (JS preserves insertion order for the
non-integer-index string keys used by the app: publisher ids and event-type
names).  DOM side effects (element creation, focus, CSS classes, scrolling)
and wall-clock timestamps stored in log rows are not modelled: no verified
claim concerns them.  Machine integers do not overflow in any modelled
computation (delays are capped at 10000), so Nat/Int are used directly.
-/

set_option autoImplicit false

namespace SS

/-- A dynamic JS/JSON value, as produced by JSON.parse in
handleIncomingMessage (src/dashboard/app.js line 758).  Objects keep their
fields in insertion order, as JS does for non-integer-index keys. -/
inductive JVal where
  | jnull
  | jbool (b : Bool)
  | jnum (n : Int)
  | jstr (s : String)
  | jarr (elems : List JVal)
  | jobj (fields : List (String × JVal))
deriving Repr

/-- JS truthiness: null, false, 0 and "" are falsy; every object and array
is truthy.  (undefined is represented as an absent field, see truthyOpt.) -/
def truthy : JVal → Bool
  | .jnull => false
  | .jbool b => b
  | .jnum n => n != 0
  | .jstr s => s ≠ ""
  | .jarr _ => true
  | .jobj _ => true

/-- Truthiness of a possibly-undefined value (none = JS undefined). -/
def truthyOpt : Option JVal → Bool
  | none => false
  | some v => truthy v

/-- First value stored under a key in an insertion-ordered object. -/
def alGet {α : Type} (l : List (String × α)) (k : String) : Option α :=
  match l with
  | [] => none
  | (k', v) :: rest => if k' = k then some v else alGet rest k

/-- JS property write obj[k] = v: overwrite in place if the key exists
(keeping its position), append otherwise. -/
def alSet {α : Type} (l : List (String × α)) (k : String) (v : α) :
    List (String × α) :=
  match l with
  | [] => [(k, v)]
  | (k', v') :: rest =>
      if k' = k then (k', v) :: rest else (k', v') :: alSet rest k v

/-- Apply f to the value stored under k, if any (position preserved). -/
def alUpdate {α : Type} (l : List (String × α)) (k : String) (f : α → α) :
    List (String × α) :=
  match l with
  | [] => []
  | (k', v) :: rest =>
      if k' = k then (k', f v) :: rest else (k', v) :: alUpdate rest k f

/-- JS property read msg[k]: none models undefined (absent field or a read
on a primitive; reading a property of null throws in JS, which no modelled
code path reaches with a null receiver). -/
def getField (m : JVal) (k : String) : Option JVal :=
  match m with
  | .jobj fields => alGet fields k
  | _ => none

/-- JS ToString coercion, used when a dynamic value becomes an object key
and by String(v) in the source.  Array elements are rendered one level deep
(no claim involves array-valued message fields). -/
def jsToString : JVal → String
  | .jnull => "null"
  | .jbool b => if b then "true" else "false"
  | .jnum n => toString n
  | .jstr s => s
  | .jobj _ => "[object Object]"
  | .jarr elems =>
      String.intercalate "," (elems.map (fun v =>
        match v with
        | .jnull => ""
        | .jbool b => if b then "true" else "false"
        | .jnum n => toString n
        | .jstr s => s
        | .jobj _ => "[object Object]"
        | .jarr _ => ""))

-- ============================================================
-- Bounded event log (appendLog, src/dashboard/app.js lines 1012-1076)
-- ============================================================

/-- MAX_LOG (src/dashboard/app.js line 12). -/
def MAX_LOG : Nat := 50

/-- One rendered log row: {kind, cardsText, raw, publisherId?}.  The row's
displayed time and DOM structure are not modelled. -/
structure LogEntry where
  kind : String
  cardsText : String
  raw : JVal
  publisherId : Option String
deriving Repr

/-- The trimming loop of appendLog: while the log holds more than MAX_LOG
rows, remove the oldest (first) row. -/
def trimLogLoop (l : List LogEntry) : List LogEntry :=
  match l with
  | [] => []
  | x :: xs => if xs.length + 1 > MAX_LOG then trimLogLoop xs else x :: xs

/-- appendLog: add the new row at the end, then trim to MAX_LOG from the
front. -/
def appendLog (e : LogEntry) (l : List LogEntry) : List LogEntry :=
  trimLogLoop (l ++ [e])

-- ============================================================
-- Card formatting helpers (src/dashboard/app.js lines 103-133)
-- ============================================================

/-- JS String.prototype.toUpperCase over the characters (kernel-reducible
stand-in for the platform routine; all exercised inputs are ASCII). -/
def strUpper (s : String) : String := ⟨s.data.map Char.toUpper⟩

/-- JS String.prototype.toLowerCase over the characters. -/
def strLower (s : String) : String := ⟨s.data.map Char.toLower⟩

/-- JS String.prototype.trim: strip whitespace from both ends. -/
def strTrim (s : String) : String :=
  ⟨((s.data.dropWhile Char.isWhitespace).reverse.dropWhile
      Char.isWhitespace).reverse⟩

/-- normalizeValue (line 103): null/undefined and blank strings render as
the em-dash placeholder, everything else as its trimmed upper-case text. -/
def normalizeValue (v : Option JVal) : String :=
  match v with
  | none => "—"
  | some .jnull => "—"
  | some v =>
      let s := strUpper (strTrim (jsToString v))
      if s = "10" then "10"
      else if s.length = 0 then "—"
      else s

/-- suitSymbol (line 111). -/
def suitSymbol (suit : Option JVal) : String :=
  let s := strLower (strTrim (match suit with
    | some v => if truthy v then jsToString v else ""
    | none => ""))
  if s = "h" then "♥"
  else if s = "d" then "♦"
  else if s = "c" then "♣"
  else if s = "s" then "♠"
  else "?"

/-- formatTwoCards (line 127). -/
def formatTwoCards (value1 suit1 value2 suit2 : Option JVal) : String :=
  let v1 := normalizeValue value1
  let v2 := normalizeValue value2
  let s1 := suitSymbol suit1
  let s2 := suitSymbol suit2
  s!"{v1}{s1} {v2}{s2}"

/-- The fields pulled out of a message by extractHandFields (line 677).
none models an undefined field. -/
structure HandFields where
  value1 : Option JVal
  suit1 : Option JVal
  value2 : Option JVal
  suit2 : Option JVal
  url : Option JVal
  ts : Option JVal
deriving Repr

/-- extractHandFields: data = (msg && msg.data) || {}; the timestamp is
data.timestamp when that is neither null nor undefined, msg.timestamp
otherwise. -/
def extractHandFields (msg : JVal) : HandFields :=
  let data := match getField msg "data" with
    | some v => if truthy v then v else .jobj []
    | none => .jobj []
  { value1 := getField data "value1"
    suit1 := getField data "suit1"
    value2 := getField data "value2"
    suit2 := getField data "suit2"
    url := getField data "url"
    ts := match getField data "timestamp" with
      | some .jnull => getField msg "timestamp"
      | some v => some v
      | none => getField msg "timestamp" }

/-- One conjunct of the hasCards test of processMessage (lines 722-730):
the field is neither null nor undefined and its string form is non-blank. -/
def presentNonBlank (v : Option JVal) : Bool :=
  match v with
  | none => false
  | some .jnull => false
  | some v => strTrim (jsToString v) ≠ ""

-- ============================================================
-- Producer state aggregator (src/dashboard/app.js lines 38-43, 698-740)
-- ============================================================

/-- One entry of the publishers store (line 38):
publishers[publisherId] = { lastSeen, playerName, latestByType }.
playerName keeps the raw truthy value the source stored (null is none). -/
structure Publisher where
  lastSeen : Nat
  playerName : Option JVal
  latestByType : List (String × JVal)
deriving Repr

/-- The aggregator state: the insertion-ordered publishers store, the
sticky selection, and the bounded event log. -/
structure AggState where
  publishers : List (String × Publisher)
  selectedPublisherId : Option String
  log : List LogEntry
deriving Repr

/-- msg.publisherId || "unknown" (line 700), coerced to a property key. -/
def derivePublisherId (msg : JVal) : String :=
  match getField msg "publisherId" with
  | some v => if truthy v then jsToString v else "unknown"
  | none => "unknown"

/-- msg.playerName || null (line 701): the raw value when truthy. -/
def derivePlayerName (msg : JVal) : Option JVal :=
  match getField msg "playerName" with
  | some v => if truthy v then some v else none
  | none => none

/-- msg.type || "unknown" (line 702), coerced to a property key. -/
def deriveMsgType (msg : JVal) : String :=
  match getField msg "type" with
  | some v => if truthy v then jsToString v else "unknown"
  | none => "unknown"

/-- The store mutation of processMessage (lines 698-717): create the record
on first sight, refresh lastSeen, overwrite playerName only when the new
value is truthy, and overwrite latestByType[msgType] unconditionally. -/
def processUnitPubs (msg : JVal) (receivedAt : Nat)
    (pubs : List (String × Publisher)) : List (String × Publisher) :=
  let publisherId := derivePublisherId msg
  let playerName := derivePlayerName msg
  let msgType := deriveMsgType msg
  let pubs := match alGet pubs publisherId with
    | some _ => pubs
    | none => alSet pubs publisherId
        { lastSeen := receivedAt, playerName := playerName, latestByType := [] }
  let pubs := alUpdate pubs publisherId (fun p => { p with lastSeen := receivedAt })
  let pubs := match playerName with
    | some nm => alUpdate pubs publisherId (fun p => { p with playerName := some nm })
    | none => pubs
  alUpdate pubs publisherId (fun p =>
    { p with latestByType := alSet p.latestByType msgType msg })

/-- The log row built by processMessage (lines 719-739).  The row's raw
payload is kept as the message value itself (the source stores its pretty-
printed JSON text; no claim depends on the formatting). -/
def processUnitLogEntry (msg : JVal) : LogEntry :=
  let hf := extractHandFields msg
  let cardsText := formatTwoCards hf.value1 hf.suit1 hf.value2 hf.suit2
  let hasCards := presentNonBlank hf.value1 && presentNonBlank hf.suit1 &&
    presentNonBlank hf.value2 && presentNonBlank hf.suit2
  let msgType := deriveMsgType msg
  { kind := if hasCards then "message" else "info"
    cardsText := if hasCards then cardsText else s!"[{msgType}]"
    raw := msg
    publisherId := some (derivePublisherId msg) }

/-- processMessage (lines 698-740): update the publishers store and append
exactly one log row for the unit. -/
def processMessage (msg : JVal) (receivedAt : Nat) (st : AggState) : AggState :=
  { st with
    publishers := processUnitPubs msg receivedAt st.publishers
    log := appendLog (processUnitLogEntry msg) st.log }

/-- The summary row appended for a bulk snapshot (lines 772-781):
kind=info, messageCount = number of keys of msg.data, and the key list. -/
def snapshotSummaryEntry (entries : List (String × JVal)) : LogEntry :=
  { kind := "info"
    cardsText := "[snapshot]"
    raw := .jobj [("event", .jstr "snapshot"),
                  ("messageCount", .jnum (entries.length : Int)),
                  ("types", .jarr (entries.map (fun kv => .jstr kv.1)))]
    publisherId := none }

/-- subMsg && typeof subMsg === "object" (line 785): null is falsy, and
typeof yields "object" exactly for objects and arrays here. -/
def jsIsTruthyObject : JVal → Bool
  | .jobj _ => true
  | .jarr _ => true
  | _ => false

/-- Object.entries of a snapshot's data value: field list for objects,
index/element pairs for arrays (JS array indices enumerate in order),
nothing otherwise. -/
def objEntries : JVal → Option (List (String × JVal))
  | .jobj fields => some fields
  | .jarr elems => some ((elems.enum).map (fun ve => (toString ve.1, ve.2)))
  | _ => none

/-- The parsed-payload path of handleIncomingMessage (lines 769-799): a
payload whose type is "snapshot" and whose data is a truthy object gets one
summary row and then each object-typed sub-message applied in key order;
anything else is processed as a single unit.  (Rendering is debounced DOM
work, not modelled.) -/
def handleParsedMessage (msg : JVal) (receivedAt : Nat) (st : AggState) :
    AggState :=
  let snapEntries : Option (List (String × JVal)) :=
    match getField msg "type" with
    | some (.jstr "snapshot") => objEntries ((getField msg "data").getD .jnull)
    | _ => none
  match snapEntries with
  | some entries =>
      let st := { st with log := appendLog (snapshotSummaryEntry entries) st.log }
      entries.foldl (fun st kv =>
        if jsIsTruthyObject kv.2 then processMessage kv.2 receivedAt st else st) st
  | none => processMessage msg receivedAt st

/-- An inbound frame after the transport/parse classification at the top of
handleIncomingMessage (lines 742-767): non-text frames and JSON parse
failures each append one error row; a parsed payload continues. -/
inductive Frame where
  | nonText
  | malformed (raw : String)
  | parsed (msg : JVal)

/-- handleIncomingMessage (lines 742-800). -/
def handleIncomingMessage (f : Frame) (receivedAt : Nat) (st : AggState) :
    AggState :=
  match f with
  | .nonText =>
      let e : LogEntry :=
        { kind := "error", cardsText := "—",
          raw := .jobj [("error", .jstr "Non-text WS message")],
          publisherId := none }
      { st with log := appendLog e st.log }
  | .malformed raw =>
      let e : LogEntry :=
        { kind := "error", cardsText := "(parse error)",
          raw := .jobj [("error", .jstr "JSON parse failed"),
                        ("payload", .jstr raw)],
          publisherId := none }
      { st with log := appendLog e st.log }
  | .parsed msg => handleParsedMessage msg receivedAt st

-- ============================================================
-- Selection resolution (src/dashboard/app.js lines 814-831)
-- ============================================================

/-- The auto-selection loop of getEffectivePublisherId (lines 821-830):
sequential strict-improvement argmax over lastSeen, starting from
(null, 0). -/
def autoSelectMostRecent (pubs : List (String × Publisher)) : Option String :=
  (pubs.foldl
    (fun acc ip => if ip.2.lastSeen > acc.2 then (some ip.1, ip.2.lastSeen) else acc)
    ((none : Option String), 0)).1

/-- getEffectivePublisherId (lines 815-831): a truthy selection naming a
live record wins; otherwise the most recently seen publisher. -/
def getEffectivePublisherId (st : AggState) : Option String :=
  match st.selectedPublisherId with
  | some sel =>
      if sel ≠ "" ∧ (alGet st.publishers sel).isSome then some sel
      else autoSelectMostRecent st.publishers
  | none => autoSelectMostRecent st.publishers

/-- Modelled from the spec (section 4.4, selection resolution): the first
producer attaining the maximum lastSeen, in insertion order; none for an
empty store.  Used only to compare getEffectivePublisherId against the
spec's words. -/
def specMostRecent : List (String × Publisher) → Option (String × Nat)
  | [] => none
  | (id, p) :: rest =>
      match specMostRecent rest with
      | none => some (id, p.lastSeen)
      | some (id', m) =>
          if p.lastSeen ≥ m then some (id, p.lastSeen) else some (id', m)

/-- Modelled from the spec (section 4.4): selectedProducerId when it refers
to a live record, else the producer with maximal lastSeen (ties to the
earliest inserted), else null. -/
def specEffectiveProducerId (st : AggState) : Option String :=
  match st.selectedPublisherId with
  | some sel =>
      if (alGet st.publishers sel).isSome then some sel
      else (specMostRecent st.publishers).map Prod.fst
  | none => (specMostRecent st.publishers).map Prod.fst

-- ============================================================
-- Connection manager (src/dashboard/app.js lines 12-29, 327-340, 448-625)
-- ============================================================

/-- RECONNECT_CAP_MS (line 13). -/
def RECONNECT_CAP_MS : Nat := 10000

/-- RECONNECT_BASE_MS (line 14). -/
def RECONNECT_BASE_MS : Nat := 500

/-- The status values passed to setStatus (line 157). -/
inductive Status where
  | connected
  | disconnected
  | reconnecting
deriving Repr, DecidableEq

/-- The module-level connection state (lines 18-29) plus the auto-fetch
checkbox the close handler reads.  reconnectTimer holds the delay of the
pending timer (none when no timer is armed); the timer's later firing and
the socket object itself are outside the modelled step functions. -/
structure ConnState where
  manualDisconnect : Bool
  reconnectTimer : Option Nat
  reconnectAttempt : Nat
  lastWasAutoReconnect : Bool
  lastConnectionUsedToken : Bool
  autoFetch : Bool
  status : Status
  log : List LogEntry
deriving Repr

/-- scheduleReconnect (lines 327-340): bail out on manual disconnect or an
already-armed timer; otherwise arm a timer with the capped exponential
delay computed from the current attempt, then bump the attempt. -/
def scheduleReconnect (s : ConnState) : ConnState :=
  if s.manualDisconnect then s
  else if s.reconnectTimer.isSome then s
  else
    { s with
      reconnectTimer :=
        some (min RECONNECT_CAP_MS (RECONNECT_BASE_MS * 2 ^ s.reconnectAttempt))
      reconnectAttempt := s.reconnectAttempt + 1
      lastWasAutoReconnect := true
      status := Status.reconnecting }

/-- ws.onopen (lines 448-451): reset the attempt counter and report
connected. -/
def wsOnOpen (s : ConnState) : ConnState :=
  { s with reconnectAttempt := 0, status := Status.connected }

/-- The log rows appended by the switch at the top of ws.onclose
(lines 472-578).  Reason/hint strings and the 4003 token-input DOM work are
elided from the raw payloads; kinds and row presence are faithful: the
4003 row is info only when a token was used and auto-fetch is on, and a
clean 1000 close appends no row at all. -/
def closeSwitchLog (code : Nat) (usedToken autoFetch : Bool)
    (log : List LogEntry) : List LogEntry :=
  let rawOf : Nat → JVal := fun c =>
    .jobj [("event", .jstr "close"), ("code", .jnum (c : Int))]
  if code = 4001 then
    appendLog { kind := "error", cardsText := "(close 4001)",
                raw := rawOf code, publisherId := none } log
  else if code = 4002 then
    appendLog { kind := "error", cardsText := "(close 4002)",
                raw := rawOf code, publisherId := none } log
  else if code = 4003 then
    if usedToken && autoFetch then
      appendLog { kind := "info", cardsText := "(close 4003)",
                  raw := rawOf code, publisherId := none } log
    else
      appendLog { kind := "error", cardsText := "(close 4003)",
                  raw := rawOf code, publisherId := none } log
  else if code = 4004 then
    appendLog { kind := "error", cardsText := "(close 4004)",
                raw := rawOf code, publisherId := none } log
  else if code ≠ 1000 then
    appendLog { kind := "info", cardsText := s!"(close {code})",
                raw := rawOf code, publisherId := none } log
  else log

/-- ws.onclose (lines 467-625): append the switch's log row, then decide
the next state — manual disconnect and the fatal codes 4001/4002/4004 stop;
4003 reconnects unless a token was used with auto-fetch off; every other
code falls through to the reconnect path. -/
def wsOnClose (code : Nat) (s : ConnState) : ConnState :=
  let s := { s with
    log := closeSwitchLog code s.lastConnectionUsedToken s.autoFetch s.log }
  if s.manualDisconnect then { s with status := Status.disconnected }
  else if code = 4001 ∨ code = 4004 then { s with status := Status.disconnected }
  else if code = 4002 then { s with status := Status.disconnected }
  else if code = 4003 then
    if s.lastConnectionUsedToken then
      if s.autoFetch then scheduleReconnect { s with status := Status.reconnecting }
      else { s with status := Status.disconnected }
    else scheduleReconnect { s with status := Status.reconnecting }
  else scheduleReconnect { s with status := Status.reconnecting }

-- ============================================================
-- reAuthInFlight guard (src/dashboard/tests.js lines 524-564)
-- ============================================================

/-- The closure state of create4003Handler in testReAuthInFlightGuard
(src/dashboard/tests.js lines 528-548): the in-flight flag and the number
of credential-refresh calls started. -/
structure ReAuthState where
  reAuthInFlight : Bool
  reAuthCalls : Nat
deriving Repr, DecidableEq

/-- The handler's onClose (tests.js lines 539-545): on a 4003 close with
the credentialed (Private Mode) connection, start one refresh unless one is
already in flight.  The refresh body increments the call counter before its
first await, so the increment is synchronous with the close event. -/
def reAuthOnClose (code : Nat) (privateMode : Bool) (h : ReAuthState) :
    ReAuthState :=
  if code = 4003 ∧ privateMode then
    if h.reAuthInFlight then h
    else { reAuthInFlight := true, reAuthCalls := h.reAuthCalls + 1 }
  else h

/-- Completion of reAuthAndReconnect (tests.js lines 532-537): the flag is
lowered once the refresh finishes. -/
def reAuthComplete (h : ReAuthState) : ReAuthState :=
  { h with reAuthInFlight := false }

-- ============================================================
-- Concrete test vectors
-- ============================================================

/-- The empty aggregator: no producers, no selection, empty log. -/
def emptyAgg : AggState :=
  { publishers := [], selectedPublisherId := none, log := [] }

/-- The "hand" sub-unit of the round-trip snapshot (spec section 8). -/
def handUnit : JVal :=
  .jobj [("publisherId", .jstr "pub1"), ("playerName", .jstr "Player1"),
         ("type", .jstr "hand"),
         ("data", .jobj [("value1", .jstr "A"), ("suit1", .jstr "h"),
                         ("value2", .jstr "K"), ("suit2", .jstr "d")])]

/-- The "state" sub-unit of the round-trip snapshot. -/
def stateUnit : JVal :=
  .jobj [("publisherId", .jstr "pub1"), ("type", .jstr "state"),
         ("data", .jobj [("status", .jstr "active")])]

/-- A bulk snapshot carrying the two sub-units for producer "pub1". -/
def roundTripSnapshot : JVal :=
  .jobj [("type", .jstr "snapshot"),
         ("data", .jobj [("hand", handUnit), ("state", stateUnit)])]

/-- A live connection that was opened with a token while auto-fetch is off:
the configuration under which a 4003 close gives up instead of retrying. -/
def tokenManualConn : ConnState :=
  { manualDisconnect := false, reconnectTimer := none, reconnectAttempt := 0,
    lastWasAutoReconnect := false, lastConnectionUsedToken := true,
    autoFetch := false, status := Status.connected, log := [] }

/-- A live tokenless connection with no pending reconnect. -/
def tokenlessConn : ConnState :=
  { manualDisconnect := false, reconnectTimer := none, reconnectAttempt := 0,
    lastWasAutoReconnect := false, lastConnectionUsedToken := false,
    autoFetch := false, status := Status.connected, log := [] }

/-- A tokenless connection already on its third attempt. -/
def tokenlessConnAttempt2 : ConnState :=
  { tokenlessConn with reconnectAttempt := 2 }

/-- A throw-away log row used to fill logs in witnesses. -/
def fillerEntry : LogEntry :=
  { kind := "info", cardsText := "x", raw := .jnull, publisherId := none }

/-- An aggregator holding producers "a" (older) and "b" (newer), with "a"
explicitly selected. -/
def twoPubsSelA : AggState :=
  { publishers := [("a", { lastSeen := 1, playerName := none, latestByType := [] }),
                   ("b", { lastSeen := 5, playerName := none, latestByType := [] })],
    selectedPublisherId := some "a", log := [] }

/-- An aggregator holding a producer under the empty-string key — the
bucket a truthy publisherId such as [] stringifies to — and a more recent
producer "x", with the empty-string producer selected. -/
def emptyKeySelState : AggState :=
  { publishers := [("", { lastSeen := 1, playerName := none, latestByType := [] }),
                   ("x", { lastSeen := 5, playerName := none, latestByType := [] })],
    selectedPublisherId := some "", log := [] }

/-- A unit message that carries no publisherId field at all. -/
def noPubIdMsg : JVal :=
  .jobj [("type", .jstr "hand"),
         ("data", .jobj [("value1", .jstr "Q"), ("suit1", .jstr "c")])]

-- ============================================================
-- Helper lemmas
-- ============================================================

theorem alGet_alSet_self {α : Type} (l : List (String × α)) (k : String)
    (v : α) : alGet (alSet l k v) k = some v := by
  induction l with
  | nil => simp [alSet, alGet]
  | cons hd tl ih =>
      by_cases h : hd.1 = k <;> simp [alSet, alGet, h, ih]

theorem alGet_alUpdate {α : Type} (l : List (String × α)) (k : String)
    (f : α → α) : alGet (alUpdate l k f) k = (alGet l k).map f := by
  induction l with
  | nil => simp [alUpdate, alGet]
  | cons hd tl ih =>
      by_cases h : hd.1 = k <;> simp [alUpdate, alGet, h, ih]

/-- The record stored under the derived producer id after one unit is
applied: lastSeen refreshed, display name overwritten only by a truthy new
value, latest-by-type overwritten at the unit's type. -/
theorem processUnitPubs_get (msg : JVal) (t : Nat)
    (pubs : List (String × Publisher)) :
    alGet (processUnitPubs msg t pubs) (derivePublisherId msg) =
      some
        { lastSeen := t
          playerName :=
            match derivePlayerName msg with
            | some nm => some nm
            | none =>
                match alGet pubs (derivePublisherId msg) with
                | some p => p.playerName
                | none => none
          latestByType :=
            alSet
              (match alGet pubs (derivePublisherId msg) with
               | some p => p.latestByType
               | none => []) (deriveMsgType msg) msg } := by
  unfold processUnitPubs
  cases hget : alGet pubs (derivePublisherId msg) with
  | some p =>
      cases hpn : derivePlayerName msg with
      | some nm =>
          simp only [hget, hpn, alGet_alUpdate, Option.map]
      | none =>
          simp only [hget, hpn, alGet_alUpdate, Option.map]
  | none =>
      cases hpn : derivePlayerName msg with
      | some nm =>
          simp only [hget, hpn, alGet_alSet_self, alGet_alUpdate, Option.map]
      | none =>
          simp only [hget, hpn, alGet_alSet_self, alGet_alUpdate, Option.map]

/-- The trimming loop is dropping from the front down to MAX_LOG rows. -/
theorem trimLogLoop_eq_drop (l : List LogEntry) :
    trimLogLoop l = l.drop (l.length - MAX_LOG) := by
  induction l with
  | nil => simp [trimLogLoop]
  | cons x xs ih =>
      by_cases h : xs.length + 1 > MAX_LOG
      · have h1 : (x :: xs).length - MAX_LOG = (xs.length - MAX_LOG) + 1 := by
          simp only [List.length_cons]; omega
        simp only [trimLogLoop, if_pos h, ih, h1, List.drop_succ_cons]
      · have h1 : (x :: xs).length - MAX_LOG = 0 := by
          simp only [List.length_cons]; omega
        simp only [trimLogLoop, if_neg h, h1, List.drop_zero]

/-- A fold whose step ignores the elements failing p is a fold over the
filtered list. -/
theorem foldl_ite_filter {α β : Type} (p : α → Bool) (f : β → α → β) :
    ∀ (l : List α) (b : β),
      l.foldl (fun acc a => if p a then f acc a else acc) b =
        (l.filter p).foldl f b := by
  intro l
  induction l with
  | nil => intro b; rfl
  | cons hd tl ih =>
      intro b
      by_cases h : p hd <;>
        simp [List.foldl_cons, List.filter_cons, h, ih]

/-- The strict-improvement argmax fold of getEffectivePublisherId, from any
accumulator: it yields the spec's first-maximum entry when that beats the
accumulated threshold, and the accumulator otherwise. -/
theorem autoSelect_foldl (l : List (String × Publisher)) :
    ∀ (b : Option String) (t : Nat),
      l.foldl (fun acc ip =>
        if ip.2.lastSeen > acc.2 then (some ip.1, ip.2.lastSeen) else acc) (b, t) =
      (match specMostRecent l with
       | none => (b, t)
       | some (id, m) => if m > t then (some id, m) else (b, t)) := by
  induction l with
  | nil => intro b t; rfl
  | cons hd tl ih =>
      intro b t
      obtain ⟨id, p⟩ := hd
      rw [List.foldl_cons]
      dsimp only
      cases hrec : specMostRecent tl with
      | none =>
          by_cases h : p.lastSeen > t
          · rw [if_pos h, ih, hrec]
            simp only [specMostRecent, hrec]
            rw [if_pos h]
          · rw [if_neg h, ih, hrec]
            simp only [specMostRecent, hrec]
            rw [if_neg h]
      | some idm =>
          obtain ⟨id', m⟩ := idm
          by_cases h : p.lastSeen > t
          · rw [if_pos h, ih, hrec]
            simp only [specMostRecent, hrec]
            by_cases h2 : p.lastSeen ≥ m
            · rw [if_pos h2]
              dsimp only
              rw [if_neg (by omega : ¬ m > p.lastSeen), if_pos h]
            · rw [if_neg h2]
              dsimp only
              rw [if_pos (by omega : m > p.lastSeen), if_pos (by omega : m > t)]
          · rw [if_neg h, ih, hrec]
            simp only [specMostRecent, hrec]
            by_cases h2 : p.lastSeen ≥ m
            · rw [if_pos h2]
              dsimp only
              rw [if_neg (by omega : ¬ m > t), if_neg h]
            · rw [if_neg h2]

/-- The spec's most-recent producer is one of the stored producers, at its
own lastSeen. -/
theorem specMostRecent_mem (l : List (String × Publisher)) :
    ∀ (id : String) (m : Nat), specMostRecent l = some (id, m) →
      ∃ p, (id, p) ∈ l ∧ p.lastSeen = m := by
  induction l with
  | nil => intro id m h; simp [specMostRecent] at h
  | cons hd tl ih =>
      intro id m h
      obtain ⟨id0, p0⟩ := hd
      rw [specMostRecent] at h
      cases hrec : specMostRecent tl with
      | none =>
          rw [hrec] at h
          simp only [Option.some.injEq, Prod.mk.injEq] at h
          exact ⟨p0, by simp [h.1.symm], h.2⟩
      | some idm =>
          obtain ⟨id', m'⟩ := idm
          rw [hrec] at h
          dsimp only at h
          by_cases h2 : p0.lastSeen ≥ m'
          · rw [if_pos h2] at h
            simp only [Option.some.injEq, Prod.mk.injEq] at h
            exact ⟨p0, by simp [h.1.symm], h.2⟩
          · rw [if_neg h2] at h
            simp only [Option.some.injEq, Prod.mk.injEq] at h
            obtain ⟨p, hp, hm⟩ := ih id' m' hrec
            exact ⟨p, by simp [List.mem_cons, h.1.symm ▸ hp], by rw [hm, h.2]⟩

/-- On a store whose lastSeen stamps are positive (receivedAt is a wall
clock), the source's strict-improvement loop agrees with the spec's
first-maximum selection. -/
theorem autoSelectMostRecent_eq_spec (l : List (String × Publisher))
    (hpos : ∀ ip ∈ l, 0 < ip.2.lastSeen) :
    autoSelectMostRecent l = (specMostRecent l).map Prod.fst := by
  unfold autoSelectMostRecent
  rw [autoSelect_foldl]
  cases hrec : specMostRecent l with
  | none => rfl
  | some idm =>
      obtain ⟨id, m⟩ := idm
      obtain ⟨p, hp, hm⟩ := specMostRecent_mem l id m hrec
      have hm0 : 0 < m := hm ▸ hpos (id, p) hp
      simp [hm0]

-- ============================================================
-- Claim theorems
-- ============================================================

/-- C1 (amended): for every transport close whose code is not 1000, 4001,
4002 or 4004, with no manual disconnect requested and no reconnect already
pending, a reconnect is scheduled with delay min(10000, 500·2^attempt) and
the attempt counter is incremented — except that a 4003 close with a
credentialed connection also requires auto-fetch to be enabled (otherwise
the manager disconnects instead); the attempt counter is reset to 0 on
every successful transport open. -/
theorem reconnect_backoff_on_transient_close :
    (∀ (s : ConnState) (code : Nat),
      s.manualDisconnect = false →
      s.reconnectTimer = none →
      code ≠ 1000 → code ≠ 4001 → code ≠ 4002 → code ≠ 4004 →
      (code = 4003 → s.lastConnectionUsedToken = true → s.autoFetch = true) →
      (wsOnClose code s).reconnectTimer =
          some (min RECONNECT_CAP_MS (RECONNECT_BASE_MS * 2 ^ s.reconnectAttempt)) ∧
      (wsOnClose code s).reconnectAttempt = s.reconnectAttempt + 1 ∧
      (wsOnClose code s).status = Status.reconnecting) ∧
    (∀ s : ConnState, (wsOnOpen s).reconnectAttempt = 0) := by
  constructor
  · intro s code hm ht h1000 h4001 h4002 h4004 h4003
    unfold wsOnClose
    by_cases hc3 : code = 4003
    · subst hc3
      cases hT : s.lastConnectionUsedToken with
      | true =>
          have hAF : s.autoFetch = true := h4003 rfl hT
          simp [hm, ht, hT, hAF, scheduleReconnect]
      | false =>
          simp [hm, ht, hT, scheduleReconnect]
    · simp [hm, ht, h4001, h4002, h4004, hc3, scheduleReconnect]
  · intro s
    simp [wsOnOpen]

/-- C1 witness: a 1006 close on a tokenless connection in its third attempt
schedules a 2000 ms retry; a successful open resets the counter. -/
theorem reconnect_backoff_on_transient_close_witness :
    (wsOnClose 1006 tokenlessConnAttempt2).reconnectTimer = some 2000 ∧
    (wsOnClose 1006 tokenlessConnAttempt2).reconnectAttempt = 3 ∧
    (wsOnClose 1006 tokenlessConnAttempt2).status = Status.reconnecting ∧
    (wsOnOpen tokenManualConn).reconnectAttempt = 0 := by
  obtain ⟨h1, h2, h3⟩ :=
    reconnect_backoff_on_transient_close.1 tokenlessConnAttempt2 1006
      rfl rfl (by decide) (by decide) (by decide) (by decide) (by decide)
  exact ⟨h1, h2, h3, reconnect_backoff_on_transient_close.2 tokenManualConn⟩

/-- C1 counterexample: a 4003 close (a code outside {1000, 4001, 4002,
4004}) on a connection that used a token with auto-fetch off schedules no
reconnect at all — it transitions to Disconnected. -/
theorem reconnect_backoff_4003_counterexample :
    (wsOnClose 4003 tokenManualConn).reconnectTimer = none ∧
    (wsOnClose 4003 tokenManualConn).status = Status.disconnected ∧
    tokenManualConn.manualDisconnect = false ∧
    ((4003 : Nat) ≠ 1000 ∧ (4003 : Nat) ≠ 4001 ∧ (4003 : Nat) ≠ 4002 ∧
      (4003 : Nat) ≠ 4004) := by
  decide

/-- C2: two credential-expiry (4003) closes of a credentialed connection
arriving before the first refresh completes start exactly one credential
refresh — the duplicate is suppressed by the reAuthInFlight guard. -/
theorem reauth_guard_single_refresh (h : ReAuthState)
    (hf : h.reAuthInFlight = false) :
    (reAuthOnClose 4003 true (reAuthOnClose 4003 true h)).reAuthCalls =
        h.reAuthCalls + 1 ∧
    (reAuthOnClose 4003 true (reAuthOnClose 4003 true h)).reAuthInFlight =
        true := by
  simp [reAuthOnClose, hf]

/-- C2 witness: from the initial handler state, the double 4003 close
yields exactly one refresh call. -/
theorem reauth_guard_single_refresh_witness :
    (reAuthOnClose 4003 true
        (reAuthOnClose 4003 true ⟨false, 0⟩)).reAuthCalls = 1 ∧
    (reAuthOnClose 4003 true
        (reAuthOnClose 4003 true ⟨false, 0⟩)).reAuthInFlight = true :=
  reauth_guard_single_refresh ⟨false, 0⟩ rfl

/-- C3 (amended): a 1000 close is not treated as final unless a manual
disconnect was requested: with the manual flag down (and no reconnect
pending) the manager schedules a backoff reconnect exactly as for a
transient close; with the manual flag up it transitions to Disconnected
without scheduling; the only special treatment of code 1000 is that its
close log entry is suppressed. -/
theorem close1000_reconnects_amended :
    (∀ s : ConnState, s.manualDisconnect = false → s.reconnectTimer = none →
      (wsOnClose 1000 s).reconnectTimer =
          some (min RECONNECT_CAP_MS (RECONNECT_BASE_MS * 2 ^ s.reconnectAttempt)) ∧
      (wsOnClose 1000 s).status = Status.reconnecting) ∧
    (∀ s : ConnState, s.manualDisconnect = true →
      (wsOnClose 1000 s).status = Status.disconnected ∧
      (wsOnClose 1000 s).reconnectTimer = s.reconnectTimer) ∧
    (∀ s : ConnState, (wsOnClose 1000 s).log = s.log) := by
  refine ⟨fun s hm ht => ?_, fun s hm => ?_, fun s => ?_⟩
  · simp [wsOnClose, closeSwitchLog, hm, ht, scheduleReconnect]
  · simp [wsOnClose, closeSwitchLog, hm]
  · by_cases hm : s.manualDisconnect <;>
      by_cases ht : s.reconnectTimer.isSome <;>
        simp [wsOnClose, closeSwitchLog, hm, ht, scheduleReconnect]

/-- C3 witness: instantiating the amended claim at a live tokenless
connection and at a manually disconnected one. -/
theorem close1000_reconnects_amended_witness :
    ((wsOnClose 1000 tokenlessConn).reconnectTimer = some 500 ∧
      (wsOnClose 1000 tokenlessConn).status = Status.reconnecting) ∧
    ((wsOnClose 1000 { tokenlessConn with manualDisconnect := true }).status =
        Status.disconnected ∧
      (wsOnClose 1000 { tokenlessConn with manualDisconnect := true }).reconnectTimer =
        none) :=
  ⟨close1000_reconnects_amended.1 tokenlessConn rfl rfl,
   close1000_reconnects_amended.2.1 { tokenlessConn with manualDisconnect := true } rfl⟩

/-- C3 counterexample: a server-initiated clean close (code 1000) with no
manual disconnect requested does schedule a reconnect (500 ms, first
attempt), refuting the claim that code 1000 is never retried. -/
theorem close1000_counterexample :
    (wsOnClose 1000 tokenlessConn).reconnectTimer = some 500 ∧
    (wsOnClose 1000 tokenlessConn).status = Status.reconnecting ∧
    tokenlessConn.manualDisconnect = false := by
  decide

/-- C4: a close with code 4001 or 4004 transitions to Disconnected and
schedules no reconnect (the timer and attempt counter are untouched). -/
theorem fatal_close_no_reconnect (s : ConnState) (code : Nat)
    (hc : code = 4001 ∨ code = 4004) :
    (wsOnClose code s).status = Status.disconnected ∧
    (wsOnClose code s).reconnectTimer = s.reconnectTimer ∧
    (wsOnClose code s).reconnectAttempt = s.reconnectAttempt := by
  rcases hc with h | h <;> subst h <;>
    by_cases hm : s.manualDisconnect <;>
      simp [wsOnClose, hm]

/-- C4 witness: a 4001 close on a live tokenless connection disconnects
without scheduling. -/
theorem fatal_close_no_reconnect_witness :
    (wsOnClose 4001 tokenlessConn).status = Status.disconnected ∧
    (wsOnClose 4001 tokenlessConn).reconnectTimer = none ∧
    (wsOnClose 4001 tokenlessConn).reconnectAttempt = 0 :=
  fatal_close_no_reconnect tokenlessConn 4001 (Or.inl rfl)

/-- C8: appending to the event log keeps it at no more than MAX_LOG = 50
rows (its length is the capped successor of the old length), and when the
log is at capacity the oldest row — the head — is the one evicted, the
newcomer going to the back (FIFO). -/
theorem log_capacity_fifo (e : LogEntry) (l : List LogEntry) :
    (appendLog e l).length ≤ MAX_LOG ∧
    (appendLog e l).length = min (l.length + 1) MAX_LOG ∧
    (l.length ≤ MAX_LOG →
      appendLog e l =
        if l.length < MAX_LOG then l ++ [e] else l.tail ++ [e]) := by
  have hd : appendLog e l = (l ++ [e]).drop (l.length + 1 - MAX_LOG) := by
    rw [appendLog, trimLogLoop_eq_drop]
    simp
  refine ⟨?_, ?_, ?_⟩
  · rw [hd]
    simp only [List.length_drop, List.length_append, List.length_singleton]
    omega
  · rw [hd]
    simp only [List.length_drop, List.length_append, List.length_singleton]
    omega
  · intro hle
    by_cases hlt : l.length < MAX_LOG
    · have h0 : l.length + 1 - MAX_LOG = 0 := by omega
      rw [hd, h0, List.drop_zero, if_pos hlt]
    · have h1 : l.length + 1 - MAX_LOG = 1 := by omega
      have hnil : l ≠ [] := by
        intro h
        rw [h] at hlt
        simp [MAX_LOG] at hlt
      rw [hd, h1, if_neg hlt,
        List.drop_append_of_le_length (by simp [MAX_LOG] at hlt ⊢; omega),
        List.drop_one]

/-- C8 witness: appending to a full log of 50 filler rows evicts exactly
the oldest row. -/
theorem log_capacity_fifo_witness :
    (appendLog fillerEntry (List.replicate MAX_LOG fillerEntry)).length ≤ MAX_LOG ∧
    appendLog fillerEntry (List.replicate MAX_LOG fillerEntry) =
      (List.replicate MAX_LOG fillerEntry).tail ++ [fillerEntry] := by
  obtain ⟨hle, _, hfifo⟩ :=
    log_capacity_fifo fillerEntry (List.replicate MAX_LOG fillerEntry)
  refine ⟨hle, ?_⟩
  have := hfifo (by simp)
  simpa using this

/-- C5: applying the bulk snapshot carrying two sub-units for producer
"pub1" (types "hand" and "state") to the empty aggregator yields exactly
one producer record, keyed "pub1", whose latestByType holds both sub-units
under "hand" and "state", and appends exactly three log rows: one snapshot
summary plus one row per sub-unit. -/
theorem snapshot_roundtrip_pub1 :
    ((handleIncomingMessage (.parsed roundTripSnapshot) 1234 emptyAgg).publishers.map
        Prod.fst = ["pub1"]) ∧
    ((alGet (handleIncomingMessage (.parsed roundTripSnapshot) 1234
          emptyAgg).publishers "pub1").map
        (fun p => p.latestByType.map Prod.fst) = some ["hand", "state"]) ∧
    ((alGet (handleIncomingMessage (.parsed roundTripSnapshot) 1234
          emptyAgg).publishers "pub1").map
        (fun p => (alGet p.latestByType "hand", alGet p.latestByType "state")) =
      some (some handUnit, some stateUnit)) ∧
    ((handleIncomingMessage (.parsed roundTripSnapshot) 1234 emptyAgg).log.map
        (fun e => (e.kind, e.cardsText)) =
      [("info", "[snapshot]"), ("message", "A♥ K♦"), ("info", "[state]")]) :=
  ⟨rfl, rfl, rfl, rfl⟩

/-- C6 (amended): on stores whose lastSeen stamps are positive (they are
wall-clock receipt times), resolution returns a selection that is a
non-empty id naming a live record (sticky, even when another producer is
more recent), otherwise falls back to the producer with the maximum
lastSeen (ties to the earliest inserted) and to null on an empty store —
except that an empty-string selection, although it can name a live record,
is discarded by the truthiness test and resolution falls back to the
most-recent producer. -/
theorem effective_publisher_resolution_amended :
    (∀ st : AggState,
      (∀ ip ∈ st.publishers, 0 < ip.2.lastSeen) →
      (∀ sel, st.selectedPublisherId = some sel → sel ≠ "") →
      getEffectivePublisherId st = specEffectiveProducerId st) ∧
    (∀ st : AggState, st.selectedPublisherId = some "" →
      getEffectivePublisherId st = autoSelectMostRecent st.publishers) := by
  constructor
  · intro st hpos hsel
    unfold getEffectivePublisherId specEffectiveProducerId
    cases hs : st.selectedPublisherId with
    | none => exact autoSelectMostRecent_eq_spec _ hpos
    | some sel =>
        have hne : sel ≠ "" := hsel sel hs
        by_cases hlive : (alGet st.publishers sel).isSome
        · simp [hne, hlive]
        · simp [hne, hlive, autoSelectMostRecent_eq_spec _ hpos]
  · intro st hs
    unfold getEffectivePublisherId
    rw [hs]
    simp

/-- C6 witness: with "a" (older) selected and "b" more recent, resolution
follows the spec and sticks to "a"; with the empty id selected, resolution
falls back to the argmax. -/
theorem effective_publisher_resolution_amended_witness :
    (getEffectivePublisherId twoPubsSelA = specEffectiveProducerId twoPubsSelA ∧
      getEffectivePublisherId twoPubsSelA = some "a") ∧
    getEffectivePublisherId emptyKeySelState =
      autoSelectMostRecent emptyKeySelState.publishers := by
  refine ⟨⟨effective_publisher_resolution_amended.1 twoPubsSelA
    (by decide)
    (by intro sel h; injection h with h; subst h; decide), rfl⟩, ?_⟩
  exact effective_publisher_resolution_amended.2 emptyKeySelState rfl

/-- C6 counterexample: the selection "" names a live record (such a record
is reachable: a truthy publisherId like the empty array stringifies to the
key ""), yet resolution ignores it — the code returns the most recent
producer "x" where the claim demands the selected "". -/
theorem effective_publisher_empty_selection_counterexample :
    emptyKeySelState.selectedPublisherId = some "" ∧
    (alGet emptyKeySelState.publishers "").isSome = true ∧
    getEffectivePublisherId emptyKeySelState = some "x" ∧
    specEffectiveProducerId emptyKeySelState = some "" ∧
    derivePublisherId (.jobj [("publisherId", .jarr [])]) = "" := by
  refine ⟨rfl, rfl, rfl, rfl, rfl⟩

/-- C7: after a unit is applied, the producer record under the derived id
has its lastSeen refreshed, keeps its previous display name unless the unit
carries a truthy (non-empty) one — last-non-empty-wins — and has
latestByType overwritten at the unit's event type unconditionally —
last-write-wins per type. -/
theorem playername_last_nonempty_wins (msg : JVal) (t : Nat) (st : AggState) :
    alGet (processMessage msg t st).publishers (derivePublisherId msg) =
      some
        { lastSeen := t
          playerName :=
            match derivePlayerName msg with
            | some nm => some nm
            | none =>
                match alGet st.publishers (derivePublisherId msg) with
                | some p => p.playerName
                | none => none
          latestByType :=
            alSet
              (match alGet st.publishers (derivePublisherId msg) with
               | some p => p.latestByType
               | none => []) (deriveMsgType msg) msg } :=
  processUnitPubs_get msg t st.publishers

/-- C9: a unit whose publisherId field is absent or the empty string is
aggregated under the sentinel "unknown" bucket: the record keyed "unknown"
is refreshed and receives the unit, and the unit's log row is tagged
"unknown". -/
theorem missing_publisher_id_unknown_bucket (msg : JVal) (t : Nat)
    (st : AggState)
    (h : getField msg "publisherId" = none ∨
         getField msg "publisherId" = some (.jstr "")) :
    derivePublisherId msg = "unknown" ∧
    (∃ r, alGet (processMessage msg t st).publishers "unknown" = some r ∧
      r.lastSeen = t ∧
      alGet r.latestByType (deriveMsgType msg) = some msg) ∧
    (processUnitLogEntry msg).publisherId = some "unknown" := by
  have hpid : derivePublisherId msg = "unknown" := by
    rcases h with h | h <;> simp [derivePublisherId, h, truthy]
  have hrec := processUnitPubs_get msg t st.publishers
  rw [hpid] at hrec
  refine ⟨hpid, ⟨_, hrec, rfl, alGet_alSet_self _ _ _⟩, ?_⟩
  simp [processUnitLogEntry, hpid]

/-- C9 witness: a "hand" unit with no publisherId lands in the "unknown"
bucket. -/
theorem missing_publisher_id_unknown_bucket_witness :
    derivePublisherId noPubIdMsg = "unknown" ∧
    (∃ r, alGet (processMessage noPubIdMsg 7 emptyAgg).publishers "unknown" =
        some r ∧
      r.lastSeen = 7 ∧
      alGet r.latestByType (deriveMsgType noPubIdMsg) = some noPubIdMsg) ∧
    (processUnitLogEntry noPubIdMsg).publisherId = some "unknown" :=
  missing_publisher_id_unknown_bucket noPubIdMsg 7 emptyAgg (Or.inl rfl)

/-- C10: expanding a bulk snapshot applies exactly the sub-messages that
are truthy objects — a null or non-object sub-message contributes no store
update and no per-unit log row — while the single summary row is appended
first and its messageCount counts every key of data, skipped entries
included. -/
theorem snapshot_skips_nonobject_units (fs : List (String × JVal)) (t : Nat)
    (st : AggState) :
    handleParsedMessage (.jobj [("type", .jstr "snapshot"), ("data", .jobj fs)])
        t st =
      (fs.filter (fun kv => jsIsTruthyObject kv.2)).foldl
        (fun st kv => processMessage kv.2 t st)
        { st with log := appendLog (snapshotSummaryEntry fs) st.log } ∧
    getField (snapshotSummaryEntry fs).raw "messageCount" =
      some (.jnum (fs.length : Int)) := by
  constructor
  · unfold handleParsedMessage
    simp only [getField, alGet, if_neg, if_pos, reduceIte, Option.getD_some,
      objEntries]
    exact foldl_ite_filter _ _ fs _
  · simp [snapshotSummaryEntry, getField, alGet]

end SS
